import Mathlib

/-!
Verification of the doeat budget application's data/derivation layer.

The development shallowly embeds the TypeScript core (entity model,
persistence service, summary engine and the stateful data-access facade)
into Lean:

* JavaScript values that can result from `JSON.parse` are modelled by the
  inductive type `JValue`; property access and property assignment follow
  strict-mode semantics (`jsGetField`, `jsSetField`), and truthiness follows
  JavaScript (`truthy`).
* Machine numbers in the source are whole-Rupiah integers, modelled as `Int`;
  the percentage fields, computed with `/` on JS numbers, are modelled as
  exact rationals (the claims only inspect the exact-zero case, where the
  two agree).
* JavaScript string relational operators and `localeCompare` on ISO date
  strings are modelled by lexicographic code-unit comparison (`strLe`).
* Storage writes are modelled as succeeding; the quota-failure path is not
  needed by any property below.
-/

namespace Doeat

/-- JSON value as produced by `JSON.parse`: null, booleans, numbers,
strings, arrays and objects (object fields in insertion order). -/
inductive JValue where
  | null : JValue
  | bool (b : Bool) : JValue
  | num (n : Int) : JValue
  | str (s : String) : JValue
  | arr (elems : List JValue) : JValue
  | obj (fields : List (String × JValue)) : JValue

/-- Lookup of an object property by key: `none` models `undefined`. -/
def lookupField : List (String × JValue) → String → Option JValue
  | [], _ => none
  | (k', v) :: rest, k => if k' = k then some v else lookupField rest k

/-- Property read `v.k` in strict-mode JavaScript. Outer `none` models a
thrown `TypeError` (reading a property of `null`); `some none` models the
property being `undefined` (primitives box to objects without the property;
JSON arrays carry no named properties). -/
def jsGetField (v : JValue) (k : String) : Option (Option JValue) :=
  match v with
  | .null => none
  | .obj fields => some (lookupField fields k)
  | _ => some none

/-- Replace the value of key `k`, or append the property if absent,
matching JavaScript property assignment on an object. -/
def setObjField : List (String × JValue) → String → JValue → List (String × JValue)
  | [], k, v => [(k, v)]
  | (k', w) :: rest, k, v =>
    if k' = k then (k', v) :: rest else (k', w) :: setObjField rest k v

/-- Property assignment `v.k = w` in strict-mode JavaScript: succeeds on
objects (and on arrays, where the expando property is invisible to later
JSON use), throws `TypeError` (`none`) on `null` and primitives. -/
def jsSetField (v : JValue) (k : String) (w : JValue) : Option JValue :=
  match v with
  | .obj fields => some (.obj (setObjField fields k w))
  | .arr es => some (.arr es)
  | _ => none

/-- JavaScript truthiness of a parsed JSON value. -/
def truthy : JValue → Bool
  | .null => false
  | .bool b => b
  | .num n => n != 0
  | .str s => s != ""
  | .arr _ => true
  | .obj _ => true

/-- Truthiness of a possibly-`undefined` property value. -/
def truthyOpt : Option JValue → Bool
  | none => false
  | some v => truthy v

/-- Lexicographic comparison of character lists, the order JavaScript's
string relational operators and `localeCompare` induce on ASCII date
strings (code-unit order). -/
def charListLe : List Char → List Char → Bool
  | [], _ => true
  | _ :: _, [] => false
  | a :: as, b :: bs => if a < b then true else if b < a then false else charListLe as bs

/-- JavaScript `a <= b` on strings, by code units. -/
def strLe (a b : String) : Bool :=
  charListLe a.data b.data

/-- Period entity from `src/types/index.ts`. -/
structure Period where
  id : String
  name : String
  startDate : String
  endDate : String
  incomeAmount : Int
deriving DecidableEq

/-- Portion entity from `src/types/index.ts` (`notes` is optional). -/
structure Portion where
  id : String
  periodId : String
  name : String
  budgetAmount : Int
  notes : Option String
deriving DecidableEq

/-- Expense entity from `src/types/index.ts`. -/
structure Expense where
  id : String
  periodId : String
  portionId : String
  date : String
  description : String
  amount : Int
deriving DecidableEq

/-- AppData, the root store persisted in localStorage. -/
structure AppData where
  version : String
  createdAt : String
  lastUsedAt : String
  periods : List Period
  portions : List Portion
  expenses : List Expense
  activePeriodId : Option String
deriving DecidableEq

/-- PortionSummary from `src/types/index.ts`; `percentUsed` as an exact
rational. -/
structure PortionSummary where
  portion : Portion
  budget : Int
  used : Int
  remaining : Int
  percentUsed : ℚ
  isOverBudget : Bool
deriving DecidableEq

/-- PeriodSummary from `src/types/index.ts`. -/
structure PeriodSummary where
  totalIncome : Int
  totalBudgeted : Int
  totalExpenses : Int
  remainingBudget : Int
  remainingIncome : Int
  unallocatedIncome : Int
  overallPercentUsed : ℚ
  isOverBudget : Bool
deriving DecidableEq

/-- Embedding of `calculatePortionSummary` (dataService.ts). -/
def calculatePortionSummary (portion : Portion) (expenses : List Expense) : PortionSummary :=
  let portionExpenses := expenses.filter (fun e => e.portionId == portion.id)
  let used := portionExpenses.foldl (fun sum e => sum + e.amount) 0
  let remaining := portion.budgetAmount - used
  let percentUsed : ℚ :=
    if portion.budgetAmount > 0 then ((used : ℚ) / (portion.budgetAmount : ℚ)) * 100 else 0
  { portion := portion
    budget := portion.budgetAmount
    used := used
    remaining := remaining
    percentUsed := percentUsed
    isOverBudget := decide (used > portion.budgetAmount) }

/-- Embedding of `calculatePeriodSummary` (dataService.ts). -/
def calculatePeriodSummary (period : Period) (portions : List Portion)
    (expenses : List Expense) : PeriodSummary :=
  let periodPortions := portions.filter (fun p => p.periodId == period.id)
  let periodExpenses := expenses.filter (fun e => e.periodId == period.id)
  let totalIncome := period.incomeAmount
  let totalBudgeted := periodPortions.foldl (fun sum p => sum + p.budgetAmount) 0
  let totalExpenses := periodExpenses.foldl (fun sum e => sum + e.amount) 0
  { totalIncome := totalIncome
    totalBudgeted := totalBudgeted
    totalExpenses := totalExpenses
    remainingBudget := totalBudgeted - totalExpenses
    remainingIncome := totalIncome - totalExpenses
    unallocatedIncome := totalIncome - totalBudgeted
    overallPercentUsed :=
      if totalBudgeted > 0 then ((totalExpenses : ℚ) / (totalBudgeted : ℚ)) * 100 else 0
    isOverBudget := decide (totalExpenses > totalBudgeted) }

/-- JSON serialization of a Period, in the field order the object literal
is built with. -/
def Period.toJson (p : Period) : JValue :=
  .obj [("id", .str p.id), ("name", .str p.name), ("startDate", .str p.startDate),
        ("endDate", .str p.endDate), ("incomeAmount", .num p.incomeAmount)]

/-- JSON serialization of a Portion; the optional `notes` key is omitted
when absent, as `JSON.stringify` omits `undefined` properties. -/
def Portion.toJson (p : Portion) : JValue :=
  .obj ([("id", .str p.id), ("periodId", .str p.periodId), ("name", .str p.name),
         ("budgetAmount", .num p.budgetAmount)] ++
        (match p.notes with
         | none => []
         | some s => [("notes", .str s)]))

/-- JSON serialization of an Expense. -/
def Expense.toJson (e : Expense) : JValue :=
  .obj [("id", .str e.id), ("periodId", .str e.periodId), ("portionId", .str e.portionId),
        ("date", .str e.date), ("description", .str e.description), ("amount", .num e.amount)]

/-- JSON serialization of the root store; the optional `activePeriodId` key
is omitted when unset, as `JSON.stringify` omits `undefined` properties. -/
def AppData.toJson (d : AppData) : JValue :=
  .obj ([("version", .str d.version), ("createdAt", .str d.createdAt),
         ("lastUsedAt", .str d.lastUsedAt),
         ("periods", .arr (d.periods.map Period.toJson)),
         ("portions", .arr (d.portions.map Portion.toJson)),
         ("expenses", .arr (d.expenses.map Expense.toJson))] ++
        (match d.activePeriodId with
         | none => []
         | some s => [("activePeriodId", .str s)]))

/-- Environment data that `generateSeedData` draws from the clock and the
`generateId` counter/randomness: the current ISO timestamp, today's date
part, the formatted month name, the month's first and last days, and the
stream of generated ids in generation order. -/
structure SeedEnv where
  nowIso : String
  today : String
  monthName : String
  monthStart : String
  monthEnd : String
  ids : Nat → String

/-- Embedding of `generateSeedData` (dataService.ts): one period for the
current month with income 10000000, five sample portions and three sample
expenses, ids drawn in source order. -/
def generateSeedData (env : SeedEnv) : AppData :=
  let periodId := env.ids 0
  { version := "v1"
    createdAt := env.nowIso
    lastUsedAt := env.nowIso
    periods := [⟨periodId, env.monthName, env.monthStart, env.monthEnd, 10000000⟩]
    portions :=
      [⟨env.ids 1, periodId, "Food", 3000000, some "Daily meals and groceries"⟩,
       ⟨env.ids 2, periodId, "Transport", 1000000, some "Ojek, fuel, parking"⟩,
       ⟨env.ids 3, periodId, "Bills", 2000000, some "Electricity, water, internet"⟩,
       ⟨env.ids 4, periodId, "Entertainment", 500000, some "Movies, games, hobbies"⟩,
       ⟨env.ids 5, periodId, "Savings", 3500000, some "Emergency fund and investments"⟩]
    expenses :=
      [⟨env.ids 6, periodId, env.ids 1, env.today, "Lunch nasi goreng", 50000⟩,
       ⟨env.ids 7, periodId, env.ids 1, env.today, "Snack and coffee", 30000⟩,
       ⟨env.ids 8, periodId, env.ids 2, env.today, "Ojek to office", 25000⟩]
    activePeriodId := some periodId }

/-- Embedding of `createEmptyAppData` (dataService.ts). -/
def createEmptyAppData (nowIso : String) : AppData :=
  { version := "v1"
    createdAt := nowIso
    lastUsedAt := nowIso
    periods := []
    portions := []
    expenses := []
    activePeriodId := none }

/-- ONE_YEAR_MS constant from dataService.ts. -/
def ONE_YEAR_MS : Int := 365 * 24 * 60 * 60 * 1000

/-- Embedding of `isDataExpired` applied to the parsed value's `createdAt`
property. `getTime` models `new Date(s).getTime()` with `none` standing for
`NaN` (invalid date); a missing property is `new Date(undefined)`, also
`NaN`. Any `NaN` comparison is false. -/
def isDataExpired (getTime : JValue → Option Int) (now : Int)
    (createdAtField : Option JValue) : Bool :=
  match createdAtField with
  | none => false
  | some c =>
    match getTime c with
    | none => false
    | some t => decide (now - t > ONE_YEAR_MS)

/-- State of the single localStorage slot as seen by `load`: the key may be
absent, hold text that `JSON.parse` rejects, or hold text parsing to a
JSON value. -/
inductive Stored where
  | absent : Stored
  | unparsable : Stored
  | parsed (v : JValue) : Stored

/-- Result of `loadDataFromLocalStorage`: the returned in-memory value, the
`wasCleared` flag, and the value written back to the storage slot. -/
structure LoadResult where
  data : JValue
  wasCleared : Bool
  saved : JValue

/-- Stamp `lastUsedAt` on a value known to be an object, as
`saveDataToLocalStorage` does right before writing. -/
def stampLastUsed (v : JValue) (nowIso : String) : JValue :=
  match jsSetField v "lastUsedAt" (.str nowIso) with
  | some v' => v'
  | none => v

/-- Embedding of `loadDataFromLocalStorage` (dataService.ts).

Control flow of the source: absent slot, a `JSON.parse` throw, a
`TypeError` from touching `null`, and a strict-mode `TypeError` from
assigning `lastUsedAt` on a primitive all land in the `catch`, which seeds,
persists and returns `wasCleared=false`; an expired store is replaced by
the empty store with `wasCleared=true`; anything else is returned as-is
with `lastUsedAt` refreshed. Storage writes are modelled as succeeding. -/
def loadDataFromLocalStorage (getTime : JValue → Option Int) (now : Int)
    (env : SeedEnv) (slot : Stored) : LoadResult :=
  let seedPath : LoadResult :=
    let s := stampLastUsed (generateSeedData env).toJson env.nowIso
    ⟨s, false, s⟩
  match slot with
  | .absent => seedPath
  | .unparsable => seedPath
  | .parsed v =>
    match jsGetField v "createdAt" with
    | none => seedPath
    | some c =>
      if isDataExpired getTime now c then
        let f := stampLastUsed (createEmptyAppData env.nowIso).toJson env.nowIso
        ⟨f, true, f⟩
      else
        match jsSetField v "lastUsedAt" (.str env.nowIso) with
        | none => seedPath
        | some v' => ⟨v', false, v'⟩

/-- Partial update for a Period, as `Partial<Period>` in the hook: each key
may be absent. -/
structure PeriodPatch where
  id : Option String
  name : Option String
  startDate : Option String
  endDate : Option String
  incomeAmount : Option Int
deriving DecidableEq

/-- Partial update for a Portion; `notes` present-with-undefined is
`some none`. -/
structure PortionPatch where
  id : Option String
  periodId : Option String
  name : Option String
  budgetAmount : Option Int
  notes : Option (Option String)
deriving DecidableEq

/-- Partial update for an Expense. -/
structure ExpensePatch where
  id : Option String
  periodId : Option String
  portionId : Option String
  date : Option String
  description : Option String
  amount : Option Int
deriving DecidableEq

/-- Object spread `{ ...p, ...updates }` for a Period. -/
def Period.applyPatch (p : Period) (u : PeriodPatch) : Period :=
  { id := u.id.getD p.id
    name := u.name.getD p.name
    startDate := u.startDate.getD p.startDate
    endDate := u.endDate.getD p.endDate
    incomeAmount := u.incomeAmount.getD p.incomeAmount }

/-- Object spread `{ ...p, ...updates }` for a Portion. -/
def Portion.applyPatch (p : Portion) (u : PortionPatch) : Portion :=
  { id := u.id.getD p.id
    periodId := u.periodId.getD p.periodId
    name := u.name.getD p.name
    budgetAmount := u.budgetAmount.getD p.budgetAmount
    notes := u.notes.getD p.notes }

/-- Object spread `{ ...e, ...updates }` for an Expense. -/
def Expense.applyPatch (e : Expense) (u : ExpensePatch) : Expense :=
  { id := u.id.getD e.id
    periodId := u.periodId.getD e.periodId
    portionId := u.portionId.getD e.portionId
    date := u.date.getD e.date
    description := u.description.getD e.description
    amount := u.amount.getD e.amount }

/-- Embedding of the hook's `setActivePeriod`: sets the pointer
unconditionally, no existence check. -/
def setActivePeriod (periodId : String) (d : AppData) : AppData :=
  { d with activePeriodId := some periodId }

/-- Embedding of the hook's `addPeriod`: the fresh id produced by
`generateId()` is passed in as `newId`. -/
def addPeriod (period : Period) (newId : String) (d : AppData) : AppData :=
  { d with
    periods := d.periods ++ [{ period with id := newId }]
    activePeriodId := some newId }

/-- Embedding of the hook's `updatePeriod`. -/
def updatePeriod (periodId : String) (updates : PeriodPatch) (d : AppData) : AppData :=
  { d with periods := d.periods.map (fun p => if p.id == periodId then p.applyPatch updates else p) }

/-- Embedding of the hook's `deletePeriod`: filters the period and both
cascaded collections, then unconditionally points `activePeriodId` at the
first remaining period (or unsets it). -/
def deletePeriod (periodId : String) (d : AppData) : AppData :=
  let newPeriods := d.periods.filter (fun p => p.id != periodId)
  { d with
    periods := newPeriods
    portions := d.portions.filter (fun p => p.periodId != periodId)
    expenses := d.expenses.filter (fun e => e.periodId != periodId)
    activePeriodId :=
      match newPeriods with
      | [] => none
      | p :: _ => some p.id }

/-- Embedding of the hook's `addPortion`. -/
def addPortion (portion : Portion) (newId : String) (d : AppData) : AppData :=
  { d with portions := d.portions ++ [{ portion with id := newId }] }

/-- Embedding of the hook's `updatePortion`. -/
def updatePortion (portionId : String) (updates : PortionPatch) (d : AppData) : AppData :=
  { d with
    portions := d.portions.map (fun p => if p.id == portionId then p.applyPatch updates else p) }

/-- Embedding of the hook's `deletePortion`: cascades to expenses
referencing the portion. -/
def deletePortion (portionId : String) (d : AppData) : AppData :=
  { d with
    portions := d.portions.filter (fun p => p.id != portionId)
    expenses := d.expenses.filter (fun e => e.portionId != portionId) }

/-- Embedding of the hook's `addExpense`. -/
def addExpense (expense : Expense) (newId : String) (d : AppData) : AppData :=
  { d with expenses := d.expenses ++ [{ expense with id := newId }] }

/-- Embedding of the hook's `updateExpense`. -/
def updateExpense (expenseId : String) (updates : ExpensePatch) (d : AppData) : AppData :=
  { d with
    expenses := d.expenses.map (fun e => if e.id == expenseId then e.applyPatch updates else e) }

/-- Embedding of the hook's `deleteExpense`. -/
def deleteExpense (expenseId : String) (d : AppData) : AppData :=
  { d with expenses := d.expenses.filter (fun e => e.id != expenseId) }

/-- Embedding of the hook's `clearData`: replaces the in-memory store with
a freshly stamped empty store. -/
def clearData (nowIso : String) : AppData :=
  { version := "v1"
    createdAt := nowIso
    lastUsedAt := nowIso
    periods := []
    portions := []
    expenses := []
    activePeriodId := none }

/-- Embedding of the hook's `getFilteredExpenses`. Truthiness guards from
the source: an unset or empty `activePeriodId` yields `[]`, and each filter
is applied only when the given string is truthy (non-empty). The final sort
models `sort((a, b) => b.date.localeCompare(a.date))`, descending by
date. -/
def getFilteredExpenses (d : AppData) (startDate endDate portionId : Option String) :
    List Expense :=
  match d.activePeriodId with
  | none => []
  | some apid =>
    if apid == "" then []
    else
      let f1 := d.expenses.filter (fun e => e.periodId == apid)
      let f2 :=
        match startDate with
        | some s => if s == "" then f1 else f1.filter (fun e => strLe s e.date)
        | none => f1
      let f3 :=
        match endDate with
        | some s => if s == "" then f2 else f2.filter (fun e => strLe e.date s)
        | none => f2
      let f4 :=
        match portionId with
        | some q => if q == "" then f3 else f3.filter (fun e => e.portionId == q)
        | none => f3
      f4.mergeSort (fun a b => strLe b.date a.date)

/-- Error message surfaced by `importDataFromJson` on any failure: the inner
`throw new Error('Invalid data structure')` is caught by the function's own
`try`/`catch` and replaced by this message. -/
def invalidJsonMsg : String := "Invalid JSON format. Please check your data."

/-- Embedding of `exportDataAsJson` (dataService.ts) at the JSON-value
level: `JSON.stringify(data, null, 2)` renders the store's JSON value as
text, injectively, and `JSON.parse` inverts that rendering, so the export
is represented by the value the exported text parses back to. -/
def exportDataAsJson (d : AppData) : JValue :=
  d.toJson

/-- Embedding of `importDataFromJson` (dataService.ts): `none` input models
text rejected by `JSON.parse`. The source then evaluates
`!data.version || !data.periods || !data.portions || !data.expenses`
(property reads throw on `null`, short-circuit order is observationally
the simultaneous match below), throws on a falsy field, and otherwise
assigns `data.lastUsedAt` and returns the value; every throw is caught and
surfaced as `invalidJsonMsg`. -/
def importDataFromJson (nowIso : String) (input : Option JValue) : Except String JValue :=
  match input with
  | none => .error invalidJsonMsg
  | some v =>
    match jsGetField v "version", jsGetField v "periods",
          jsGetField v "portions", jsGetField v "expenses" with
    | some ver, some per, some por, some exps =>
      if truthyOpt ver && truthyOpt per && truthyOpt por && truthyOpt exps then
        match jsSetField v "lastUsedAt" (.str nowIso) with
        | some v' => .ok v'
        | none => .error invalidJsonMsg
      else .error invalidJsonMsg
    | _, _, _, _ => .error invalidJsonMsg

/-- Embedding of the facade's `importData` (useBudgetData hook): it calls
`importDataFromJson` and only on success replaces the in-memory store and
persists; a thrown validation error leaves the state untouched. The pair
is (state after the call, outcome). -/
def importData (cur : JValue) (nowIso : String) (input : Option JValue) :
    JValue × Except String JValue :=
  match importDataFromJson nowIso input with
  | .error e => (cur, .error e)
  | .ok v => (v, .ok v)

/-- Property `k` of value `v` is present (no throw, not `undefined`) and
truthy. -/
def presentTruthy (v : JValue) (k : String) : Bool :=
  match jsGetField v k with
  | some (some w) => truthy w
  | _ => false

/-- Failure condition of import stated from the amended claim's words: the
text is unparsable, or one of the four required top-level fields is
absent or falsy (on a non-object every one of them is). -/
def importFailsAmended (input : Option JValue) : Bool :=
  match input with
  | none => true
  | some v =>
    !(presentTruthy v "version" && presentTruthy v "periods" &&
      presentTruthy v "portions" && presentTruthy v "expenses")

/-- A left fold accumulating `+ f x` computes the initial value plus the sum
of the mapped list. -/
theorem foldl_add_sum {α : Type} (f : α → Int) :
    ∀ (l : List α) (a : Int), l.foldl (fun s x => s + f x) a = a + (l.map f).sum
  | [], a => by simp
  | x :: xs, a => by
    simp [List.foldl, foldl_add_sum f xs, add_assoc]

/-- C7: for every portion with budget B and every expense list whose expenses
referencing that portion sum to U, `calculatePortionSummary` returns
`used = U`, `remaining = B - U`, `isOverBudget = (U > B)`, and when `B = 0`
it returns `percentUsed = 0` exactly. -/
theorem calculatePortionSummary_spec (portion : Portion) (expenses : List Expense) :
    (calculatePortionSummary portion expenses).budget = portion.budgetAmount ∧
    (calculatePortionSummary portion expenses).used =
      ((expenses.filter (fun e => e.portionId == portion.id)).map Expense.amount).sum ∧
    (calculatePortionSummary portion expenses).remaining =
      portion.budgetAmount -
        ((expenses.filter (fun e => e.portionId == portion.id)).map Expense.amount).sum ∧
    ((calculatePortionSummary portion expenses).isOverBudget = true ↔
      ((expenses.filter (fun e => e.portionId == portion.id)).map Expense.amount).sum >
        portion.budgetAmount) ∧
    (portion.budgetAmount = 0 → (calculatePortionSummary portion expenses).percentUsed = 0) := by
  refine ⟨rfl, ?_, ?_, ?_, ?_⟩
  · simp [calculatePortionSummary, foldl_add_sum]
  · simp [calculatePortionSummary, foldl_add_sum]
  · simp [calculatePortionSummary, foldl_add_sum]
  · intro h
    simp [calculatePortionSummary, h]

/-- Witness for C7 at a concrete zero-budget portion. -/
theorem calculatePortionSummary_spec_witness :
    (Portion.mk "p1" "per1" "Food" 0 none).budgetAmount = 0 ∧
    (calculatePortionSummary (Portion.mk "p1" "per1" "Food" 0 none) []).percentUsed = 0 :=
  ⟨rfl, (calculatePortionSummary_spec (Portion.mk "p1" "per1" "Food" 0 none) []).2.2.2.2 rfl⟩

/-- C6: for every period and collections of portions and expenses,
`calculatePeriodSummary` computes `totalBudgeted` as the sum of
`budgetAmount` over exactly the portions with matching `periodId`,
`totalExpenses` as the sum of `amount` over exactly the expenses with
matching `periodId` (irrespective of `portionId`), the stated differences,
`isOverBudget = (totalExpenses > totalBudgeted)`, and
`overallPercentUsed = 0` when `totalBudgeted = 0`. -/
theorem calculatePeriodSummary_spec (period : Period) (portions : List Portion)
    (expenses : List Expense) :
    (calculatePeriodSummary period portions expenses).totalIncome = period.incomeAmount ∧
    (calculatePeriodSummary period portions expenses).totalBudgeted =
      ((portions.filter (fun p => p.periodId == period.id)).map Portion.budgetAmount).sum ∧
    (calculatePeriodSummary period portions expenses).totalExpenses =
      ((expenses.filter (fun e => e.periodId == period.id)).map Expense.amount).sum ∧
    (calculatePeriodSummary period portions expenses).remainingBudget =
      (calculatePeriodSummary period portions expenses).totalBudgeted -
        (calculatePeriodSummary period portions expenses).totalExpenses ∧
    (calculatePeriodSummary period portions expenses).remainingIncome =
      (calculatePeriodSummary period portions expenses).totalIncome -
        (calculatePeriodSummary period portions expenses).totalExpenses ∧
    (calculatePeriodSummary period portions expenses).unallocatedIncome =
      (calculatePeriodSummary period portions expenses).totalIncome -
        (calculatePeriodSummary period portions expenses).totalBudgeted ∧
    ((calculatePeriodSummary period portions expenses).isOverBudget = true ↔
      (calculatePeriodSummary period portions expenses).totalExpenses >
        (calculatePeriodSummary period portions expenses).totalBudgeted) ∧
    ((calculatePeriodSummary period portions expenses).totalBudgeted = 0 →
      (calculatePeriodSummary period portions expenses).overallPercentUsed = 0) := by
  refine ⟨rfl, ?_, ?_, rfl, rfl, rfl, ?_, ?_⟩
  · simp [calculatePeriodSummary, foldl_add_sum]
  · simp [calculatePeriodSummary, foldl_add_sum]
  · simp [calculatePeriodSummary]
  · intro h
    simp only [calculatePeriodSummary] at h ⊢
    simp [h]

/-- Witness for C6 at a concrete period with no matching portions. -/
theorem calculatePeriodSummary_spec_witness :
    (calculatePeriodSummary (Period.mk "P" "Nov" "s" "e" 10000000) [] []).totalBudgeted = 0 ∧
    (calculatePeriodSummary (Period.mk "P" "Nov" "s" "e" 10000000) [] []).overallPercentUsed = 0 :=
  ⟨rfl, (calculatePeriodSummary_spec (Period.mk "P" "Nov" "s" "e" 10000000) [] []).2.2.2.2.2.2.2 rfl⟩

/-- C3: for every persisted store that parses successfully and whose
`createdAt` is more than 1 year (365 days in milliseconds) before the
current time, load replaces it with the empty store (empty periods,
portions and expenses, no active period), persists that empty store, and
returns it with `wasCleared = true`. -/
theorem load_expired_returns_empty (getTime : JValue → Option Int) (now : Int)
    (env : SeedEnv) (v c : JValue) (t : Int)
    (h1 : jsGetField v "createdAt" = some (some c))
    (h2 : getTime c = some t)
    (h3 : now - t > ONE_YEAR_MS) :
    loadDataFromLocalStorage getTime now env (.parsed v) =
      ⟨(createEmptyAppData env.nowIso).toJson, true, (createEmptyAppData env.nowIso).toJson⟩ ∧
    (createEmptyAppData env.nowIso).periods = [] ∧
    (createEmptyAppData env.nowIso).portions = [] ∧
    (createEmptyAppData env.nowIso).expenses = [] ∧
    (createEmptyAppData env.nowIso).activePeriodId = none := by
  have hd : decide (now - t > ONE_YEAR_MS) = true := decide_eq_true h3
  refine ⟨?_, rfl, rfl, rfl, rfl⟩
  simp only [loadDataFromLocalStorage, h1, isDataExpired, h2, hd, if_true]
  rfl

/-- Witness for C3: a store whose `createdAt` parses to epoch 0, loaded one
millisecond after a year has elapsed, comes back empty and cleared. -/
theorem load_expired_returns_empty_witness :
    jsGetField (.obj [("createdAt", .str "old")]) "createdAt" = some (some (.str "old")) ∧
    (ONE_YEAR_MS + 1 - 0 > ONE_YEAR_MS) ∧
    loadDataFromLocalStorage (fun _ => some 0) (ONE_YEAR_MS + 1)
        ⟨"NOW", "TODAY", "Nov 2025", "MS", "ME", fun _ => "id"⟩
        (.parsed (.obj [("createdAt", .str "old")])) =
      ⟨(createEmptyAppData "NOW").toJson, true, (createEmptyAppData "NOW").toJson⟩ :=
  ⟨rfl, by decide,
   (load_expired_returns_empty (fun _ => some 0) (ONE_YEAR_MS + 1)
      ⟨"NOW", "TODAY", "Nov 2025", "MS", "ME", fun _ => "id"⟩
      (.obj [("createdAt", .str "old")]) (.str "old") 0 rfl rfl (by decide)).1⟩

/-- C1 counterexample: a persisted value that parses to an object lacking
all three entity collections is NOT replaced with seed data. Loaded
un-expired, it is returned (and persisted) as-is with only `lastUsedAt`
added, `wasCleared = false`; its `periods` property is still `undefined`,
while the seed data the claim promises has exactly one period. -/
theorem load_corrupt_structure_counterexample :
    jsGetField (.obj [("createdAt", .str "2025-06-01")]) "periods" = some none ∧
    jsGetField (.obj [("createdAt", .str "2025-06-01")]) "portions" = some none ∧
    jsGetField (.obj [("createdAt", .str "2025-06-01")]) "expenses" = some none ∧
    loadDataFromLocalStorage (fun _ => some 0) 0
        ⟨"NOW2", "TODAY", "Nov 2025", "MS", "ME", fun _ => "id"⟩
        (.parsed (.obj [("createdAt", .str "2025-06-01")])) =
      ⟨.obj [("createdAt", .str "2025-06-01"), ("lastUsedAt", .str "NOW2")], false,
       .obj [("createdAt", .str "2025-06-01"), ("lastUsedAt", .str "NOW2")]⟩ ∧
    jsGetField (loadDataFromLocalStorage (fun _ => some 0) 0
        ⟨"NOW2", "TODAY", "Nov 2025", "MS", "ME", fun _ => "id"⟩
        (.parsed (.obj [("createdAt", .str "2025-06-01")]))).data "periods" = some none ∧
    (generateSeedData ⟨"NOW2", "TODAY", "Nov 2025", "MS", "ME", fun _ => "id"⟩).periods.length
      = 1 :=
  ⟨rfl, rfl, rfl, rfl, rfl, rfl⟩

/-- C1 (amended): a present storage value that `JSON.parse` rejects is
treated as corrupt — load generates fresh seed data (one period, five
portions, three expenses), persists it, and returns `wasCleared = false`.
A value that parses is NOT structurally validated: a parsed object that is
not expired — even one lacking the periods/portions/expenses collections —
is returned (and persisted) with only `lastUsedAt` refreshed,
`wasCleared = false`. -/
theorem load_corrupt_amended (getTime : JValue → Option Int) (now : Int) (env : SeedEnv) :
    loadDataFromLocalStorage getTime now env .unparsable =
      ⟨(generateSeedData env).toJson, false, (generateSeedData env).toJson⟩ ∧
    (generateSeedData env).periods.length = 1 ∧
    (generateSeedData env).portions.length = 5 ∧
    (generateSeedData env).expenses.length = 3 ∧
    (∀ fields : List (String × JValue),
      isDataExpired getTime now (lookupField fields "createdAt") = false →
      loadDataFromLocalStorage getTime now env (.parsed (.obj fields)) =
        ⟨.obj (setObjField fields "lastUsedAt" (.str env.nowIso)), false,
         .obj (setObjField fields "lastUsedAt" (.str env.nowIso))⟩) := by
  refine ⟨rfl, rfl, rfl, rfl, ?_⟩
  intro fields h
  simp only [loadDataFromLocalStorage, jsGetField, jsSetField, h, Bool.false_eq_true, if_false]

/-- Witness for C1 (amended): loading a concrete parsed object with no
entity collections returns it with only `lastUsedAt` added. -/
theorem load_corrupt_amended_witness :
    isDataExpired (fun _ => none) 0 (lookupField [("foo", JValue.null)] "createdAt") = false ∧
    loadDataFromLocalStorage (fun _ => none) 0 ⟨"N", "T", "M", "S", "E", fun _ => "i"⟩
        (.parsed (.obj [("foo", JValue.null)])) =
      ⟨.obj [("foo", JValue.null), ("lastUsedAt", .str "N")], false,
       .obj [("foo", JValue.null), ("lastUsedAt", .str "N")]⟩ :=
  ⟨rfl,
   (load_corrupt_amended (fun _ => none) 0 ⟨"N", "T", "M", "S", "E", fun _ => "i"⟩).2.2.2.2
     [("foo", JValue.null)] rfl⟩

/-- C4 counterexample: a store whose `version` field is the empty string
exports fine, but re-importing the export fails with the validation error
instead of reproducing the store — the round trip does not succeed for
every store. -/
theorem export_import_roundtrip_counterexample :
    importDataFromJson "N" (some (exportDataAsJson (AppData.mk "" "C" "L" [] [] [] none))) =
      .error invalidJsonMsg :=
  rfl

/-- C4 (amended): for every store whose `version` is non-empty (truthy),
exporting and re-importing succeeds and reproduces the store field-for-field
except `lastUsedAt`, which the import refreshes to the current time; a
store with an empty `version` fails the import's truthiness check. -/
theorem export_import_roundtrip_amended (d : AppData) (nowIso : String)
    (h : d.version ≠ "") :
    importDataFromJson nowIso (some (exportDataAsJson d)) =
      .ok (AppData.toJson { d with lastUsedAt := nowIso }) := by
  have hb : (d.version != "") = true := bne_iff_ne.mpr h
  simp only [exportDataAsJson, importDataFromJson, AppData.toJson, jsGetField, jsSetField,
    lookupField, setObjField, truthyOpt, truthy, hb, Bool.true_and, Bool.and_self, if_true]
  rfl

/-- Witness for C4 (amended) at a concrete store. -/
theorem export_import_roundtrip_amended_witness :
    (AppData.mk "v1" "C" "L" [] [] [] none).version ≠ "" ∧
    importDataFromJson "N" (some (exportDataAsJson (AppData.mk "v1" "C" "L" [] [] [] none))) =
      .ok (AppData.toJson { AppData.mk "v1" "C" "L" [] [] [] none with lastUsedAt := "N" }) :=
  ⟨by decide, export_import_roundtrip_amended (AppData.mk "v1" "C" "L" [] [] [] none) "N"
    (by decide)⟩

/-- C5 counterexample: a JSON object in which all four required top-level
fields are present — `version` merely holds the empty string — is rejected
by import, so failure is not characterized by "unparsable or a field not
present". -/
theorem import_error_counterexample :
    jsGetField (.obj [("version", .str ""), ("periods", .arr []), ("portions", .arr []),
        ("expenses", .arr [])]) "version" = some (some (.str "")) ∧
    jsGetField (.obj [("version", .str ""), ("periods", .arr []), ("portions", .arr []),
        ("expenses", .arr [])]) "periods" = some (some (.arr [])) ∧
    jsGetField (.obj [("version", .str ""), ("periods", .arr []), ("portions", .arr []),
        ("expenses", .arr [])]) "portions" = some (some (.arr [])) ∧
    jsGetField (.obj [("version", .str ""), ("periods", .arr []), ("portions", .arr []),
        ("expenses", .arr [])]) "expenses" = some (some (.arr [])) ∧
    importDataFromJson "N" (some (.obj [("version", .str ""), ("periods", .arr []),
        ("portions", .arr []), ("expenses", .arr [])])) = .error invalidJsonMsg :=
  ⟨rfl, rfl, rfl, rfl, rfl⟩

/-- C5 (amended): import fails — always with the human-readable message
`invalidJsonMsg` — exactly when the text is unparsable or one of the four
required top-level fields is absent or falsy (a non-object has all of them
absent); and whenever that failure condition holds, the facade's
`importData` leaves the in-memory store completely unchanged. -/
theorem import_error_amended (nowIso : String) (cur : JValue) (input : Option JValue) :
    (importDataFromJson nowIso input = .error invalidJsonMsg ↔
      importFailsAmended input = true) ∧
    (∀ e, importDataFromJson nowIso input = .error e → e = invalidJsonMsg) ∧
    (importFailsAmended input = true →
      importData cur nowIso input = (cur, .error invalidJsonMsg)) := by
  have hobj : ∀ fields : List (String × JValue),
      importDataFromJson nowIso (some (.obj fields)) =
        if truthyOpt (lookupField fields "version") &&
           truthyOpt (lookupField fields "periods") &&
           truthyOpt (lookupField fields "portions") &&
           truthyOpt (lookupField fields "expenses") then
          .ok (.obj (setObjField fields "lastUsedAt" (.str nowIso)))
        else .error invalidJsonMsg := fun _ => rfl
  have hfails : ∀ fields : List (String × JValue),
      importFailsAmended (some (.obj fields)) =
        !(truthyOpt (lookupField fields "version") &&
          truthyOpt (lookupField fields "periods") &&
          truthyOpt (lookupField fields "portions") &&
          truthyOpt (lookupField fields "expenses")) := by
    intro fields
    have hpt : ∀ k, presentTruthy (.obj fields) k = truthyOpt (lookupField fields k) := by
      intro k
      cases h : lookupField fields k <;> simp [presentTruthy, jsGetField, truthyOpt, h]
    simp [importFailsAmended, hpt]
  have hmain : importDataFromJson nowIso input = .error invalidJsonMsg ↔
      importFailsAmended input = true := by
    match input with
    | none => simp [importDataFromJson, importFailsAmended]
    | some v =>
      match v with
      | .null => simp [importDataFromJson, importFailsAmended, presentTruthy, jsGetField]
      | .bool b => simp [importDataFromJson, importFailsAmended, presentTruthy, jsGetField,
          truthyOpt]
      | .num n => simp [importDataFromJson, importFailsAmended, presentTruthy, jsGetField,
          truthyOpt]
      | .str s => simp [importDataFromJson, importFailsAmended, presentTruthy, jsGetField,
          truthyOpt]
      | .arr es => simp [importDataFromJson, importFailsAmended, presentTruthy, jsGetField,
          truthyOpt]
      | .obj fields =>
        rw [hobj, hfails]
        cases hb : (truthyOpt (lookupField fields "version") &&
            truthyOpt (lookupField fields "periods") &&
            truthyOpt (lookupField fields "portions") &&
            truthyOpt (lookupField fields "expenses")) <;> simp
  have hunique : ∀ e, importDataFromJson nowIso input = .error e → e = invalidJsonMsg := by
    intro e he
    match input with
    | none =>
      simp [importDataFromJson] at he
      exact he.symm
    | some v =>
      match v with
      | .null => simp [importDataFromJson, jsGetField] at he; exact he.symm
      | .bool b => simp [importDataFromJson, jsGetField, truthyOpt] at he; exact he.symm
      | .num n => simp [importDataFromJson, jsGetField, truthyOpt] at he; exact he.symm
      | .str s => simp [importDataFromJson, jsGetField, truthyOpt] at he; exact he.symm
      | .arr es => simp [importDataFromJson, jsGetField, truthyOpt] at he; exact he.symm
      | .obj fields =>
        rw [hobj] at he
        cases hb : (truthyOpt (lookupField fields "version") &&
            truthyOpt (lookupField fields "periods") &&
            truthyOpt (lookupField fields "portions") &&
            truthyOpt (lookupField fields "expenses")) <;> rw [hb] at he <;> simp at he
        exact he.symm
  refine ⟨hmain, hunique, ?_⟩
  intro hf
  have he := hmain.mpr hf
  simp [importData, he]

/-- Witness for C5 (amended): importing an unparsable text into a concrete
store fails with the message and leaves the store unchanged. -/
theorem import_error_amended_witness :
    importFailsAmended none = true ∧
    (importDataFromJson "N5" none = .error invalidJsonMsg ↔ importFailsAmended none = true) ∧
    importData (.str "current-store") "N5" none = (.str "current-store", .error invalidJsonMsg) :=
  ⟨rfl, (import_error_amended "N5" (.str "current-store") none).1,
   (import_error_amended "N5" (.str "current-store") none).2.2 rfl⟩

/-- C9: the import check is a truthiness check, not a presence check — any
JSON value carrying one of the four required top-level fields with a falsy
value (empty string, 0, null, false) is rejected with the validation
error. -/
theorem import_rejects_present_falsy_field (nowIso : String) (v w : JValue) (k : String)
    (hk : k = "version" ∨ k = "periods" ∨ k = "portions" ∨ k = "expenses")
    (hget : jsGetField v k = some (some w))
    (hfalsy : truthy w = false) :
    importDataFromJson nowIso (some v) = .error invalidJsonMsg := by
  match v with
  | .null => simp [jsGetField] at hget
  | .bool b => simp [jsGetField] at hget
  | .num n => simp [jsGetField] at hget
  | .str s => simp [jsGetField] at hget
  | .arr es => simp [jsGetField] at hget
  | .obj fields =>
    simp only [jsGetField, Option.some.injEq] at hget
    rcases hk with hk | hk | hk | hk <;> subst hk <;>
      simp [importDataFromJson, jsGetField, truthyOpt, hget, hfalsy]

/-- Witness for C9: an object whose `periods` field is present but `null`
is rejected. -/
theorem import_rejects_present_falsy_field_witness :
    (("periods" : String) = "version" ∨ ("periods" : String) = "periods" ∨
      ("periods" : String) = "portions" ∨ ("periods" : String) = "expenses") ∧
    jsGetField (.obj [("version", .str "v1"), ("periods", JValue.null), ("portions", .arr []),
        ("expenses", .arr [])]) "periods" = some (some JValue.null) ∧
    truthy JValue.null = false ∧
    importDataFromJson "T9" (some (.obj [("version", .str "v1"), ("periods", JValue.null),
        ("portions", .arr []), ("expenses", .arr [])])) = .error invalidJsonMsg :=
  ⟨Or.inr (Or.inl rfl), rfl, rfl,
   import_rejects_present_falsy_field "T9"
     (.obj [("version", .str "v1"), ("periods", JValue.null), ("portions", .arr []),
        ("expenses", .arr [])]) JValue.null "periods" (Or.inr (Or.inl rfl)) rfl rfl⟩

/-- Totality of the code-unit lexicographic order. -/
theorem charListLe_total : ∀ as bs : List Char, (charListLe as bs || charListLe bs as) = true
  | [], _ => by simp [charListLe]
  | _ :: _, [] => by simp [charListLe]
  | a :: as, b :: bs => by
    by_cases h1 : a < b
    · simp [charListLe, h1]
    · by_cases h2 : b < a
      · simp [charListLe, h1, h2]
      · simp [charListLe, h1, h2, charListLe_total as bs]

/-- Transitivity of the code-unit lexicographic order. -/
theorem charListLe_trans : ∀ as bs cs : List Char,
    charListLe as bs = true → charListLe bs cs = true → charListLe as cs = true
  | [], _, _ => fun _ _ => rfl
  | _ :: _, [], _ => fun hab _ => by simp [charListLe] at hab
  | _ :: _, _ :: _, [] => fun _ hbc => by simp [charListLe] at hbc
  | a :: as, b :: bs, c :: cs => fun hab hbc => by
    by_cases h1 : a < b
    · by_cases h2 : b < c
      · simp [charListLe, lt_trans h1 h2]
      · by_cases h3 : c < b
        · simp [charListLe, h2, h3] at hbc
        · have hbc' : b = c := le_antisymm (not_lt.mp h3) (not_lt.mp h2)
          subst hbc'
          simp [charListLe, h1]
    · by_cases h1' : b < a
      · simp [charListLe, h1, h1'] at hab
      · have hab' : a = b := le_antisymm (not_lt.mp h1') (not_lt.mp h1)
        subst hab'
        simp only [charListLe, lt_irrefl, if_false] at hab
        by_cases h2 : a < c
        · simp [charListLe, h2]
        · by_cases h3 : c < a
          · simp [charListLe, h2, h3] at hbc
          · have h4 : a = c := le_antisymm (not_lt.mp h3) (not_lt.mp h2)
            subst h4
            simp only [charListLe, lt_irrefl, if_false] at hbc ⊢
            exact charListLe_trans as bs cs hab hbc

/-- Transitivity of `strLe`. -/
theorem strLe_trans (a b c : String) :
    strLe a b = true → strLe b c = true → strLe a c = true :=
  charListLe_trans a.data b.data c.data

/-- Totality of `strLe`. -/
theorem strLe_total (a b : String) : (strLe a b || strLe b a) = true :=
  charListLe_total a.data b.data

/-- C2 counterexample: in a store with periods a, b, c and active period c,
deleting period a — which is not the active period — nevertheless changes
`activePeriodId` from c to b, even though period c still exists. -/
theorem deletePeriod_counterexample :
    (AppData.mk "v1" "CR" "LU"
        [Period.mk "a" "A" "s" "e" 1, Period.mk "b" "B" "s" "e" 1, Period.mk "c" "C" "s" "e" 1]
        [] [] (some "c")).activePeriodId = some "c" ∧
    ("a" : String) ≠ "c" ∧
    Period.mk "c" "C" "s" "e" 1 ∈
      (deletePeriod "a" (AppData.mk "v1" "CR" "LU"
        [Period.mk "a" "A" "s" "e" 1, Period.mk "b" "B" "s" "e" 1, Period.mk "c" "C" "s" "e" 1]
        [] [] (some "c"))).periods ∧
    (deletePeriod "a" (AppData.mk "v1" "CR" "LU"
        [Period.mk "a" "A" "s" "e" 1, Period.mk "b" "B" "s" "e" 1, Period.mk "c" "C" "s" "e" 1]
        [] [] (some "c"))).activePeriodId = some "b" := by
  refine ⟨rfl, by decide, by decide, rfl⟩

/-- C2 (amended): `deletePeriod` removes the period with the given id, all
portions and all expenses with that `periodId`, leaving every other
period's entities untouched; and `activePeriodId` is unconditionally set
to the first remaining period in collection order (or unset if none
remain), regardless of whether the deleted period was the active one. -/
theorem deletePeriod_amended (d : AppData) (periodId : String) :
    (∀ p : Period, p ∈ (deletePeriod periodId d).periods ↔ p ∈ d.periods ∧ p.id ≠ periodId) ∧
    (∀ q : Portion,
      q ∈ (deletePeriod periodId d).portions ↔ q ∈ d.portions ∧ q.periodId ≠ periodId) ∧
    (∀ e : Expense,
      e ∈ (deletePeriod periodId d).expenses ↔ e ∈ d.expenses ∧ e.periodId ≠ periodId) ∧
    (deletePeriod periodId d).activePeriodId =
      ((d.periods.filter (fun p => p.id != periodId)).head?).map Period.id := by
  refine ⟨?_, ?_, ?_, ?_⟩
  · intro p
    simp [deletePeriod, List.mem_filter, bne_iff_ne]
  · intro q
    simp [deletePeriod, List.mem_filter, bne_iff_ne]
  · intro e
    simp [deletePeriod, List.mem_filter, bne_iff_ne]
  · cases h : d.periods.filter (fun p => p.id != periodId) <;> simp [deletePeriod, h]

/-- C10: every facade mutation operation (setActivePeriod, addPeriod,
updatePeriod, deletePeriod, addPortion, updatePortion, deletePortion,
addExpense, updateExpense, deleteExpense) leaves the store's `version` and
`createdAt` unchanged, while `clearData` replaces them with a fresh stamp
(`resetData` and `importData` likewise replace the whole store). -/
theorem facade_mutations_preserve_version_createdAt (d : AppData)
    (pid newId qid eid nowIso : String) (p : Period) (q : Portion) (e : Expense)
    (up : PeriodPatch) (uq : PortionPatch) (ue : ExpensePatch) :
    (setActivePeriod pid d).version = d.version ∧
    (setActivePeriod pid d).createdAt = d.createdAt ∧
    (addPeriod p newId d).version = d.version ∧
    (addPeriod p newId d).createdAt = d.createdAt ∧
    (updatePeriod pid up d).version = d.version ∧
    (updatePeriod pid up d).createdAt = d.createdAt ∧
    (deletePeriod pid d).version = d.version ∧
    (deletePeriod pid d).createdAt = d.createdAt ∧
    (addPortion q newId d).version = d.version ∧
    (addPortion q newId d).createdAt = d.createdAt ∧
    (updatePortion qid uq d).version = d.version ∧
    (updatePortion qid uq d).createdAt = d.createdAt ∧
    (deletePortion qid d).version = d.version ∧
    (deletePortion qid d).createdAt = d.createdAt ∧
    (addExpense e newId d).version = d.version ∧
    (addExpense e newId d).createdAt = d.createdAt ∧
    (updateExpense eid ue d).version = d.version ∧
    (updateExpense eid ue d).createdAt = d.createdAt ∧
    (deleteExpense eid d).version = d.version ∧
    (deleteExpense eid d).createdAt = d.createdAt ∧
    (clearData nowIso).version = "v1" ∧
    (clearData nowIso).createdAt = nowIso :=
  ⟨rfl, rfl, rfl, rfl, rfl, rfl, rfl, rfl, rfl, rfl, rfl,
   rfl, rfl, rfl, rfl, rfl, rfl, rfl, rfl, rfl, rfl, rfl⟩

/-- C8: with a (truthy) active period and truthy-when-provided filters,
`getFilteredExpenses` returns exactly the active period's expenses lying
in the inclusive date range (when given) and matching the portion filter
(when given), in descending date order (`strLe` is JavaScript's code-unit
string order on the ISO dates). -/
theorem getFilteredExpenses_spec (d : AppData) (apid : String)
    (startDate endDate portionId : Option String)
    (happ : d.activePeriodId = some apid) (hne : apid ≠ "")
    (hsd : ∀ s, startDate = some s → s ≠ "")
    (hed : ∀ s, endDate = some s → s ≠ "")
    (hpid : ∀ s, portionId = some s → s ≠ "") :
    (∀ e : Expense,
      e ∈ getFilteredExpenses d startDate endDate portionId ↔
        (e ∈ d.expenses ∧ e.periodId = apid ∧
         (∀ s, startDate = some s → strLe s e.date = true) ∧
         (∀ s, endDate = some s → strLe e.date s = true) ∧
         (∀ s, portionId = some s → e.portionId = s))) ∧
    (getFilteredExpenses d startDate endDate portionId).Pairwise
      (fun a b => strLe b.date a.date = true) := by
  have hape : (apid == "") = false := by
    simp [hne]
  have hpair : ∀ l : List Expense,
      (l.mergeSort (fun a b => strLe b.date a.date)).Pairwise
        (fun a b => strLe b.date a.date = true) :=
    @List.sorted_mergeSort Expense (fun a b => strLe b.date a.date)
      (fun a b c h1 h2 => strLe_trans c.date b.date a.date h2 h1)
      (fun a b => strLe_total b.date a.date)
  constructor
  · intro e
    rcases startDate with _ | s <;> rcases endDate with _ | t <;> rcases portionId with _ | u
    · simp [getFilteredExpenses, happ, hape, List.mem_mergeSort, List.mem_filter, and_assoc]
    · have hu' : u ≠ "" := hpid u rfl
      simp [getFilteredExpenses, happ, hape, hu', List.mem_mergeSort, List.mem_filter,
        and_assoc]
      tauto
    · have ht' : t ≠ "" := hed t rfl
      simp [getFilteredExpenses, happ, hape, ht', List.mem_mergeSort, List.mem_filter,
        and_assoc]
      tauto
    · have ht' : t ≠ "" := hed t rfl
      have hu' : u ≠ "" := hpid u rfl
      simp [getFilteredExpenses, happ, hape, ht', hu', List.mem_mergeSort, List.mem_filter,
        and_assoc]
      tauto
    · have hs' : s ≠ "" := hsd s rfl
      simp [getFilteredExpenses, happ, hape, hs', List.mem_mergeSort, List.mem_filter,
        and_assoc]
      tauto
    · have hs' : s ≠ "" := hsd s rfl
      have hu' : u ≠ "" := hpid u rfl
      simp [getFilteredExpenses, happ, hape, hs', hu', List.mem_mergeSort, List.mem_filter,
        and_assoc]
      tauto
    · have hs' : s ≠ "" := hsd s rfl
      have ht' : t ≠ "" := hed t rfl
      simp [getFilteredExpenses, happ, hape, hs', ht', List.mem_mergeSort, List.mem_filter,
        and_assoc]
      tauto
    · have hs' : s ≠ "" := hsd s rfl
      have ht' : t ≠ "" := hed t rfl
      have hu' : u ≠ "" := hpid u rfl
      simp [getFilteredExpenses, happ, hape, hs', ht', hu', List.mem_mergeSort,
        List.mem_filter, and_assoc]
      tauto
  · rcases startDate with _ | s <;> rcases endDate with _ | t <;> rcases portionId with _ | u
    · simp only [getFilteredExpenses, happ, hape]
      exact hpair _
    · have hu' : u ≠ "" := hpid u rfl
      simp only [getFilteredExpenses, happ, hape, hu']
      simp [hu', hpair _]
    · have ht' : t ≠ "" := hed t rfl
      simp only [getFilteredExpenses, happ, hape]
      simp [ht', hpair _]
    · have ht' : t ≠ "" := hed t rfl
      have hu' : u ≠ "" := hpid u rfl
      simp only [getFilteredExpenses, happ, hape]
      simp [ht', hu', hpair _]
    · have hs' : s ≠ "" := hsd s rfl
      simp only [getFilteredExpenses, happ, hape]
      simp [hs', hpair _]
    · have hs' : s ≠ "" := hsd s rfl
      have hu' : u ≠ "" := hpid u rfl
      simp only [getFilteredExpenses, happ, hape]
      simp [hs', hu', hpair _]
    · have hs' : s ≠ "" := hsd s rfl
      have ht' : t ≠ "" := hed t rfl
      simp only [getFilteredExpenses, happ, hape]
      simp [hs', ht', hpair _]
    · have hs' : s ≠ "" := hsd s rfl
      have ht' : t ≠ "" := hed t rfl
      have hu' : u ≠ "" := hpid u rfl
      simp only [getFilteredExpenses, happ, hape]
      simp [hs', ht', hu', hpair _]

/-- Witness for C8 at a concrete store: the date-range filter keeps only
in-range expenses of the active period, sorted descending. -/
theorem getFilteredExpenses_spec_witness :
    (AppData.mk "v1" "CR" "LU" [] []
        [Expense.mk "x1" "P" "po1" "2025-11-06" "a" 10,
         Expense.mk "x2" "P" "po2" "2025-11-12" "b" 20,
         Expense.mk "x3" "Q" "po1" "2025-11-07" "c" 30] (some "P")).activePeriodId = some "P" ∧
    ("P" : String) ≠ "" ∧
    (Expense.mk "x1" "P" "po1" "2025-11-06" "a" 10 ∈
      getFilteredExpenses
        (AppData.mk "v1" "CR" "LU" [] []
          [Expense.mk "x1" "P" "po1" "2025-11-06" "a" 10,
           Expense.mk "x2" "P" "po2" "2025-11-12" "b" 20,
           Expense.mk "x3" "Q" "po1" "2025-11-07" "c" 30] (some "P"))
        (some "2025-11-05") (some "2025-11-10") none) ∧
    (getFilteredExpenses
        (AppData.mk "v1" "CR" "LU" [] []
          [Expense.mk "x1" "P" "po1" "2025-11-06" "a" 10,
           Expense.mk "x2" "P" "po2" "2025-11-12" "b" 20,
           Expense.mk "x3" "Q" "po1" "2025-11-07" "c" 30] (some "P"))
        (some "2025-11-05") (some "2025-11-10") none).Pairwise
      (fun a b => strLe b.date a.date = true) :=
  ⟨rfl, by decide,
   ((getFilteredExpenses_spec
      (AppData.mk "v1" "CR" "LU" [] []
        [Expense.mk "x1" "P" "po1" "2025-11-06" "a" 10,
         Expense.mk "x2" "P" "po2" "2025-11-12" "b" 20,
         Expense.mk "x3" "Q" "po1" "2025-11-07" "c" 30] (some "P"))
      "P" (some "2025-11-05") (some "2025-11-10") none rfl (by decide)
      (by intro s h; cases h; decide) (by intro s h; cases h; decide)
      (by intro s h; exact Option.noConfusion h)).1
      (Expense.mk "x1" "P" "po1" "2025-11-06" "a" 10)).mpr
     ⟨by decide, rfl, by intro s h; cases h; decide, by intro s h; cases h; decide,
      by intro s h; exact Option.noConfusion h⟩,
   (getFilteredExpenses_spec
      (AppData.mk "v1" "CR" "LU" [] []
        [Expense.mk "x1" "P" "po1" "2025-11-06" "a" 10,
         Expense.mk "x2" "P" "po2" "2025-11-12" "b" 20,
         Expense.mk "x3" "Q" "po1" "2025-11-07" "c" 30] (some "P"))
      "P" (some "2025-11-05") (some "2025-11-10") none rfl (by decide)
      (by intro s h; cases h; decide) (by intro s h; cases h; decide)
      (by intro s h; exact Option.noConfusion h)).2⟩

end Doeat
